import Mathlib

/-!
Shallow embedding of the decision pipeline and trade-execution gate of
`decision.py` (repository `llm_coin_auto`).

The program runs a three-stage analysis pipeline (news analysis, price
analysis, final decision), then a trade gate that parses the final decision
text and conditionally executes and records a trade, and a scheduler that
repeats the whole cycle on a fixed interval.

Modelling conventions:
  - Python floats that only ever feed order comparisons and record fields are
    modelled as rationals (`Rat`).
  - A call that can raise is modelled as `Except Unit`; the bodies of
    `try/except` blocks are translated branch by branch.
  - The language model, the news tool, the market collector, the balance
    query and the trade-execution primitive are external collaborators; each
    is a field of an environment record giving the outcome of the
    corresponding call (`Except Unit` result).
  - `datetime.now()` is modelled by a `now` field of the environment;
    `strftime` over a Python `datetime` is reproduced digit by digit.
  - Indicator fields of the market snapshot (`rsi`, `macd`, ...) flow only
    into prompt text consumed by the opaque model, so the snapshot is
    represented by the one field the control flow reads,
    `current_price.closing_price`.
-/

/-- Python `datetime`: the fields `strftime` can render. The `microsecond`
field exists on every Python `datetime` value even though the format string
`%Y%m%d%H%M%S` used by the program never renders it. -/
structure PyDatetime where
  year : Nat
  month : Nat
  day : Nat
  hour : Nat
  minute : Nat
  second : Nat
  microsecond : Nat
deriving DecidableEq, Repr

/-- Decimal digit characters of a two-digit zero-padded field, as produced by
`strftime` directives `%m`, `%d`, `%H`, `%M`, `%S` on in-range values. -/
def two_digits (n : Nat) : List Char :=
  [Nat.digitChar (n / 10), Nat.digitChar (n % 10)]

/-- Decimal digit characters of a four-digit zero-padded field, as produced by
the `strftime` directive `%Y` on years 1000 to 9999 (zero-padded below that). -/
def four_digits (n : Nat) : List Char :=
  two_digits (n / 100) ++ two_digits (n % 100)

/-- Rendering of `t.strftime("%Y%m%d%H%M%S")`: second-resolution timestamp string. The
`microsecond` field is not rendered. -/
def strftime_YmdHMS (t : PyDatetime) : String :=
  ⟨four_digits t.year ++ two_digits t.month ++ two_digits t.day ++
    two_digits t.hour ++ two_digits t.minute ++ two_digits t.second⟩

/-- Order id of a HOLD record: `f"HOLD_{timestamp.strftime('%Y%m%d%H%M%S')}"`
(decision.py line 290). -/
def hold_order_id (t : PyDatetime) : String :=
  "HOLD_" ++ strftime_YmdHMS t

/-- Order id of a CANT_BUY record:
`f"BUY_CANT_{timestamp.strftime('%Y%m%d%H%M%S')}"` (decision.py line 314). -/
def buy_cant_order_id (t : PyDatetime) : String :=
  "BUY_CANT_" ++ strftime_YmdHMS t

/-- Python substring test on lists of characters: `startsList n h` holds when
`n` is an initial segment of `h`. -/
def startsList : List Char → List Char → Bool
  | [], _ => true
  | _ :: _, [] => false
  | a :: as, b :: bs => a == b && startsList as bs

/-- Python `needle in hay` over the characters of `hay`. -/
def containsSub (needle : List Char) : List Char → Bool
  | [] => startsList needle []
  | c :: t => startsList needle (c :: t) || containsSub needle t

/-- Python `needle in hay` on strings. -/
def pyIn (needle hay : String) : Bool :=
  containsSub needle.data hay.data

/-- Python `str.lower()` restricted to the alphabets the program actually
feeds it: ASCII letters are lowered, Korean syllables (the keywords `관망`,
`매수`, `매도`) have no case and pass through. -/
def py_lower (s : String) : String :=
  ⟨s.data.map Char.toLower⟩

/-- One stage result held in `state['results']`: `{analysis, timestamp}`. -/
structure AnalysisEntry where
  analysis : String
  timestamp : PyDatetime
deriving DecidableEq, Repr

/-- The final decision entry `state['results']['final_decision']`:
`{decision, timestamp}`. -/
structure FinalEntry where
  decision : String
  timestamp : PyDatetime
deriving DecidableEq, Repr

/-- The `results` dictionary of the pipeline context. A key absent from the
Python dictionary is `none`; reading an absent key raises `KeyError`. -/
structure Results where
  news_analysis : Option AnalysisEntry
  price_analysis : Option AnalysisEntry
  final_decision : Option FinalEntry
deriving DecidableEq, Repr

/-- Market snapshot: the field the pipeline control flow reads is
`market_data['current_price']['closing_price']`. -/
structure MarketData where
  closing_price : Rat
deriving DecidableEq, Repr

/-- The `AgentState` context threaded through the pipeline. `market_data` is
`none` when it is still the initial empty dictionary or was set to Python
`None` by a failed fetch; reading a price out of it then raises. -/
structure AgentState where
  results : Results
  market_data : Option MarketData
deriving DecidableEq, Repr

/-- Structured result of `trade_executor.execute_trade`. -/
structure ExecResult where
  status : String
  type : String
  quantity : Rat
  price : Rat
  total_amount : Rat
  order_id : String
deriving DecidableEq, Repr

/-- One row written by `db_manager.save_trade_execution`: a persisted
Decision Record. -/
structure TradeRecord where
  timestamp : PyDatetime
  trade_type : String
  quantity : Rat
  price : Rat
  total_amount : Rat
  order_id : String
deriving DecidableEq, Repr

/-- Environment of one run: outcomes of every external call the run makes. -/
structure Env where
  /-- Contents of `trader.analyzer.data_queue` at run start; each fetch pops
  one element when the queue is nonempty. -/
  queue0 : List MarketData
  /-- Outcome of the n-th call to `trader.collect_market_data()`. -/
  collect : Nat → Except Unit MarketData
  /-- Outcome of `get_recent_news.invoke("")` (news tool; its inner
  collection step catches its own errors, the database read can raise). -/
  news_tool : Except Unit String
  /-- Response text of the news-analysis model call, or a raised error. -/
  llm_news : Except Unit String
  /-- Response text of the price-analysis model call, or a raised error. -/
  llm_price : Except Unit String
  /-- Response text of the final-decision model call, or a raised error. -/
  llm_final : Except Unit String
  /-- Outcome of `trade_executor.get_balance()`: a dictionary as an
  association list, or a raised error. -/
  balance : Except Unit (List (String × Rat))
  /-- Outcome of `trade_executor.execute_trade(...)`. -/
  exec : Except Unit ExecResult
  /-- Wall-clock time observed by the run. -/
  now : PyDatetime

/-- Python `dict.get(k, dflt)` on an association list. -/
def dict_get (d : List (String × Rat)) (k : String) (dflt : Rat) : Rat :=
  match d.find? (fun p => p.1 == k) with
  | some p => p.2
  | none => dflt

/-- Observable outcome of `execute_trading_decision`: the rows passed to
`save_trade_execution`, whether `execute_trade` was invoked, and whether
`get_balance` was invoked. -/
structure GateResult where
  saved : List TradeRecord
  executeCalled : Bool
  balanceQueried : Bool
deriving DecidableEq, Repr

/-- Execution tail of the gate (decision.py lines 337 to 357): invoke
`execute_trade` and save the result only when its status is `SUCCESS`; a
raise inside is caught by the outer handler (line 358) and nothing is
saved. -/
def gate_exec_tail (ts : PyDatetime) (env : Env) (bq : Bool) : GateResult :=
  match env.exec with
  | .error _ => ⟨[], true, bq⟩
  | .ok r =>
    if r.status == "SUCCESS" then
      ⟨[⟨ts, r.type, r.quantity, r.price, r.total_amount, r.order_id⟩], true, bq⟩
    else
      ⟨[], true, bq⟩

/-- Translation of `execute_trading_decision` (decision.py lines 272 to 359),
branch by branch.

Control-flow notes reproduced from the source:
  - line 274: a missing `final_decision` key returns without saving;
  - line 279: reading `closing_price` out of an empty or `None`
    `market_data` raises, the outer handler (line 358) swallows it and
    nothing is saved;
  - line 286: the hold keyword check comes first, so it wins over any other
    keyword in the text;
  - lines 302 to 327: on the buy path the local name `trade_executor` is
    bound (line 305) and the balance is checked; a raise in the balance
    query is caught locally and the function returns with nothing saved;
  - lines 330 to 335: on every non-buy non-hold path the name
    `trade_executor` was never bound in this function body, so Python raises
    `UnboundLocalError` at `if not trade_executor:`; that exception is not a
    `ValueError`, so it escapes to the outer handler and the function
    returns with nothing saved and no execution. Only the buy path (where
    line 305 bound the name to a fresh, truthy executor) reaches
    `execute_trade`. -/
def execute_trading_decision (st : AgentState) (env : Env) : GateResult :=
  match st.results.final_decision with
  | none => ⟨[], false, false⟩
  | some fd =>
    match st.market_data with
    | none => ⟨[], false, false⟩
    | some md =>
      let current_price := md.closing_price
      let ts := env.now
      let decision_text := py_lower fd.decision
      if pyIn "관망" decision_text then
        ⟨[⟨ts, "HOLD", 0, current_price, 0, hold_order_id ts⟩], false, false⟩
      else if pyIn "매수" decision_text then
        match env.balance with
        | .error _ => ⟨[], false, true⟩
        | .ok info =>
          let available_krw := dict_get info "available_krw" 0
          if available_krw < 10000 then
            ⟨[⟨ts, "CANT_BUY", 0, current_price, 0, buy_cant_order_id ts⟩],
              false, true⟩
          else
            gate_exec_tail ts env true
      else
        ⟨[], false, false⟩

/-- State of the market-data source during a run: the remaining prefetch
queue and the number of `trader.collect_market_data()` invocations so far. -/
structure FetchState where
  queue : List MarketData
  collectCalls : Nat
deriving DecidableEq, Repr

/-- Translation of `get_market_data_once` (decision.py lines 63 to 78). Despite its name,
every call collects data anew (docstring: collect fresh market data every
time and store it in the state): it pops the prefetch queue when nonempty,
otherwise it invokes `collect_market_data`, counting the invocation; on a
raise it stores Python `None` into `state['market_data']`. It returns the
value stored. -/
def get_market_data_once (env : Env) (st : AgentState) (fs : FetchState) :
    Option MarketData × AgentState × FetchState :=
  match fs.queue with
  | md :: rest =>
    (some md, { st with market_data := some md }, { fs with queue := rest })
  | [] =>
    match env.collect fs.collectCalls with
    | .ok md =>
      (some md, { st with market_data := some md },
        { queue := [], collectCalls := fs.collectCalls + 1 })
    | .error _ =>
      (none, { st with market_data := none },
        { queue := [], collectCalls := fs.collectCalls + 1 })

/-- Translation of `news_analysis_agent` (decision.py lines 105 to 151): read the news tool,
invoke the model, write `results['news_analysis']`. A raise in either
external call propagates out of the stage. -/
def news_analysis_agent (env : Env) (st : AgentState) :
    Except Unit AgentState :=
  match env.news_tool with
  | .error e => .error e
  | .ok _news =>
    match env.llm_news with
    | .error e => .error e
    | .ok resp =>
      .ok { st with
        results := { st.results with news_analysis := some ⟨resp, env.now⟩ } }

/-- Translation of `price_analysis_agent` (decision.py lines 153 to 213): fetch market data
via `get_market_data_once`; building the prompt reads
`market_data['analysis']`, which raises when the fetch left `None`; then
invoke the model and write `results['price_analysis']`. -/
def price_analysis_agent (env : Env) (st : AgentState) (fs : FetchState) :
    Except Unit (AgentState × FetchState) :=
  match get_market_data_once env st fs with
  | (none, _, _) => .error ()
  | (some _, st1, fs1) =>
    match env.llm_price with
    | .error e => .error e
    | .ok resp =>
      .ok ({ st1 with
        results := { st1.results with price_analysis := some ⟨resp, env.now⟩ } },
        fs1)

/-- Translation of `final_decision_agent` (decision.py lines 215 to 270): fetch market data
again via `get_market_data_once` (line 228), read the current price (raises
on `None`), build the prompt by reading `results['news_analysis']` and
`results['price_analysis']` (a missing key raises `KeyError`), invoke the
model and write `results['final_decision']`. -/
def final_decision_agent (env : Env) (st : AgentState) (fs : FetchState) :
    Except Unit (AgentState × FetchState) :=
  match get_market_data_once env st fs with
  | (none, _, _) => .error ()
  | (some _, st1, fs1) =>
    match st1.results.news_analysis with
    | none => .error ()
    | some _na =>
      match st1.results.price_analysis with
      | none => .error ()
      | some _pa =>
        match env.llm_final with
        | .error e => .error e
        | .ok resp =>
          .ok ({ st1 with
            results :=
              { st1.results with final_decision := some ⟨resp, env.now⟩ } },
            fs1)

/-- Initial context built by `run_trading_analysis` (decision.py lines 385 to
390): empty `results`, empty `market_data`. -/
def initial_state : AgentState :=
  ⟨⟨none, none, none⟩, none⟩

/-- Translation of `create_trading_workflow`, compiled and invoked (decision.py lines 361 to
378 and 397): the three stages run strictly in the order news analysis, then
price analysis, then final decision; the first raise aborts the run. -/
def workflow_invoke (env : Env) : Except Unit (AgentState × FetchState) :=
  match news_analysis_agent env initial_state with
  | .error e => .error e
  | .ok st1 =>
    match price_analysis_agent env st1 ⟨env.queue0, 0⟩ with
    | .error e => .error e
    | .ok (st2, fs2) => final_decision_agent env st2 fs2

/-- Translation of `run_trading_analysis` (decision.py lines 380 to 420): invoke the
workflow; when it completed and produced a final decision, run the trade
gate; a workflow raise is re-raised (line 420) and nothing reaches the gate.
The second component lists the Decision Records persisted via
`save_trade_execution` during the run. -/
def run_trading_analysis (env : Env) :
    Except Unit (AgentState × FetchState) × List TradeRecord :=
  match workflow_invoke env with
  | .error e => (.error e, [])
  | .ok (st, fs) =>
    if st.results.final_decision.isSome then
      (.ok (st, fs), (execute_trading_decision st env).saved)
    else
      (.ok (st, fs), [])

/-- Whether a run completed: the workflow finished and the final-decision
stage produced a result. -/
def runCompleted (env : Env) : Bool :=
  match workflow_invoke env with
  | .ok (st, _) => st.results.final_decision.isSome
  | .error _ => false

/-- Scheduler interval constant (decision.py line 424). -/
def WAIT_MINUTES : Nat := 20

/-- Scheduler interval in seconds (decision.py line 425). -/
def WAIT_SECONDS : Nat := WAIT_MINUTES * 60

/-- What one scheduler cycle does from the loop's point of view:
`run_trading_analysis` returns normally, raises an exception, or the cycle
is hit by `KeyboardInterrupt`. -/
inductive CycleResult
  | success
  | error
  | interrupt
deriving DecidableEq, Repr

/-- Observable trace of the scheduler loop over a finite prefix of cycles:
the sleep durations performed, how many cycles were started, and whether the
loop terminated via the interrupt handler. -/
structure SchedTrace where
  waits : List Nat
  cyclesStarted : Nat
  interrupted : Bool
deriving DecidableEq, Repr

/-- Translation of `run_continuous_analysis` (decision.py lines 422 to 456) over a finite
prefix of cycle outcomes. A successful cycle sleeps `WAIT_SECONDS` and
continues; a raised exception is caught by the generic handler, sleeps the
same `WAIT_SECONDS`, and continues; only `KeyboardInterrupt` breaks the
loop. An exhausted prefix means the loop is still running. -/
def run_continuous_analysis : List CycleResult → SchedTrace
  | [] => ⟨[], 0, false⟩
  | c :: rest =>
    match c with
    | .interrupt => ⟨[], 1, true⟩
    | _ =>
      let t := run_continuous_analysis rest
      ⟨WAIT_SECONDS :: t.waits, t.cyclesStarted + 1, t.interrupted⟩


/-! Concrete fixtures used by witnesses and counterexamples. -/

/-- A fixed timestamp. -/
def t0 : PyDatetime := ⟨2025, 6, 1, 12, 0, 0, 0⟩

/-- A fully successful environment: empty prefetch queue, every external call
succeeds, hold decision text, 50000 KRW available, a successful buy
execution offered by the exchange. -/
def baseEnv : Env :=
  { queue0 := []
    collect := fun _ => .ok ⟨100⟩
    news_tool := .ok "[]"
    llm_news := .ok "news"
    llm_price := .ok "price"
    llm_final := .ok "최종 투자 결정: 관망"
    balance := .ok [("available_krw", 50000)]
    exec := .ok ⟨"SUCCESS", "BUY", 2, 100, 200, "EXCHANGE-0042"⟩
    now := t0 }

/-- Variant of `baseEnv` whose final decision is a sell. -/
def env_sell : Env := { baseEnv with llm_final := .ok "최종 투자 결정: 매도" }

/-- Variant of `baseEnv` whose news tool raises, so the run fails in the
first stage, before reconciliation. -/
def env_fail : Env := { baseEnv with news_tool := .error () }

/-- Variant of `baseEnv` with a buy decision and 9999 KRW available. -/
def env_c3 : Env :=
  { baseEnv with
    llm_final := .ok "최종 투자 결정: 매수"
    balance := .ok [("available_krw", 9999)] }

/-- Variant of `baseEnv` with a buy decision and a raising balance query. -/
def env_c6 : Env :=
  { baseEnv with
    llm_final := .ok "최종 투자 결정: 매수"
    balance := .error () }

/-- Variant of `baseEnv` with a buy decision and a balance dictionary that
lacks the `available_krw` key. -/
def env_c10 : Env :=
  { baseEnv with
    llm_final := .ok "최종 투자 결정: 매수"
    balance := .ok [("total_krw", 50000)] }

/-- A completed-run context whose final decision is the given text. -/
def st_gate (decision : String) : AgentState :=
  ⟨⟨some ⟨"news", t0⟩, some ⟨"price", t0⟩, some ⟨decision, t0⟩⟩, some ⟨100⟩⟩

/-- The context produced by a full run under `baseEnv`. -/
def wf_state : AgentState :=
  ⟨⟨some ⟨"news", t0⟩, some ⟨"price", t0⟩,
    some ⟨"최종 투자 결정: 관망", t0⟩⟩, some ⟨100⟩⟩

/-! Helper lemmas. -/

/-- Injectivity of `Nat.digitChar` below 10. -/
lemma digitChar_inj : ∀ a : Nat, a < 10 → ∀ b : Nat, b < 10 →
    Nat.digitChar a = Nat.digitChar b → a = b := by decide

/-- The second-resolution `strftime` rendering is injective on in-range
field values: equal strings force equal fields down to the second. -/
lemma strftime_inj (t1 t2 : PyDatetime)
    (h1y : t1.year < 10000) (h2y : t2.year < 10000)
    (h1mo : t1.month < 100) (h2mo : t2.month < 100)
    (h1d : t1.day < 100) (h2d : t2.day < 100)
    (h1h : t1.hour < 100) (h2h : t2.hour < 100)
    (h1mi : t1.minute < 100) (h2mi : t2.minute < 100)
    (h1s : t1.second < 100) (h2s : t2.second < 100)
    (h : strftime_YmdHMS t1 = strftime_YmdHMS t2) :
    t1.year = t2.year ∧ t1.month = t2.month ∧ t1.day = t2.day ∧
      t1.hour = t2.hour ∧ t1.minute = t2.minute ∧ t1.second = t2.second := by
  have hd := congrArg String.data h
  simp only [strftime_YmdHMS] at hd
  simp [four_digits, two_digits] at hd
  obtain ⟨a1, a2, a3, a4, b1, b2, c1, c2, d1, d2, e1, e2, f1, f2⟩ := hd
  refine ⟨?_, ?_, ?_, ?_, ?_, ?_⟩
  · have q1 := digitChar_inj _ (by omega) _ (by omega) a1
    have q2 := digitChar_inj _ (by omega) _ (by omega) a2
    have q3 := digitChar_inj _ (by omega) _ (by omega) a3
    have q4 := digitChar_inj _ (by omega) _ (by omega) a4
    omega
  · have q1 := digitChar_inj _ (by omega) _ (by omega) b1
    have q2 := digitChar_inj _ (by omega) _ (by omega) b2
    omega
  · have q1 := digitChar_inj _ (by omega) _ (by omega) c1
    have q2 := digitChar_inj _ (by omega) _ (by omega) c2
    omega
  · have q1 := digitChar_inj _ (by omega) _ (by omega) d1
    have q2 := digitChar_inj _ (by omega) _ (by omega) d2
    omega
  · have q1 := digitChar_inj _ (by omega) _ (by omega) e1
    have q2 := digitChar_inj _ (by omega) _ (by omega) e2
    omega
  · have q1 := digitChar_inj _ (by omega) _ (by omega) f1
    have q2 := digitChar_inj _ (by omega) _ (by omega) f2
    omega

/-- The gate saves at most one Decision Record, in every branch. -/
lemma gate_saved_len (st : AgentState) (env : Env) :
    (execute_trading_decision st env).saved.length ≤ 1 := by
  unfold execute_trading_decision gate_exec_tail
  dsimp only
  repeat' split
  all_goals simp_all

/-- The price stage, run on an empty prefetch queue, leaves behind an empty
queue and exactly one more collector invocation. -/
lemma price_agent_fs (env : Env) (st : AgentState) (fs : FetchState)
    (p : AgentState × FetchState)
    (hq : fs.queue = []) (h : price_analysis_agent env st fs = .ok p) :
    p.2 = ⟨[], fs.collectCalls + 1⟩ := by
  unfold price_analysis_agent get_market_data_once at h
  rw [hq] at h
  repeat' split at h
  all_goals (try cases hc : env.collect fs.collectCalls)
  all_goals simp_all
  all_goals (rw [← h])

/-- The final stage, run on an empty prefetch queue, leaves behind an empty
queue and exactly one more collector invocation. -/
lemma final_agent_fs (env : Env) (st : AgentState) (fs : FetchState)
    (p : AgentState × FetchState)
    (hq : fs.queue = []) (h : final_decision_agent env st fs = .ok p) :
    p.2 = ⟨[], fs.collectCalls + 1⟩ := by
  unfold final_decision_agent get_market_data_once at h
  rw [hq] at h
  repeat' split at h
  all_goals (try cases hc : env.collect fs.collectCalls)
  all_goals simp_all
  all_goals (rw [← h])

/-- Fetching market data never changes the `results` part of the context. -/
lemma get_md_results (env : Env) (st : AgentState) (fs : FetchState) :
    ((get_market_data_once env st fs).2.1).results = st.results := by
  unfold get_market_data_once
  repeat' split
  all_goals rfl

/-! Claim theorems. -/

/-- Claim C1, counterexample: under a fully successful environment with an
empty prefetch queue, a full run executes both the price-analysis stage and
the final-decision stage and invokes the market collector exactly twice, not
once. The claim says exactly one fetch call. -/
theorem spec_C1_counterexample :
    (workflow_invoke baseEnv).toOption.map
        (fun p => (p.1.results.price_analysis.isSome,
          p.1.results.final_decision.isSome, p.2.collectCalls)) =
      some (true, true, 2) ∧ (2 : Nat) ≠ 1 := by
  constructor
  · rfl
  · decide

/-- Claim C1, amended: the market snapshot is refetched at each stage that
needs it; with an empty prefetch queue, every completed workflow run invokes
the market collector exactly twice (once in price analysis, once in the
final-decision stage). -/
theorem spec_C1_amended (env : Env) (st : AgentState) (fs : FetchState)
    (hq : env.queue0 = [])
    (hok : workflow_invoke env = .ok (st, fs)) :
    fs.collectCalls = 2 := by
  unfold workflow_invoke at hok
  cases hn : news_analysis_agent env initial_state with
  | error e => rw [hn] at hok; exact absurd hok (by simp)
  | ok st1 =>
    rw [hn] at hok
    dsimp only at hok
    cases hp : price_analysis_agent env st1 ⟨env.queue0, 0⟩ with
    | error e => rw [hp] at hok; exact absurd hok (by simp)
    | ok p =>
      rw [hp] at hok
      dsimp only at hok
      have hfs2 : p.2 = ⟨[], 1⟩ := price_agent_fs env st1 ⟨env.queue0, 0⟩ p hq hp
      have := final_agent_fs env p.1 p.2 (st, fs) (by rw [hfs2]) hok
      rw [hfs2] at this
      have h2 : fs = ⟨[], 2⟩ := by simpa using this
      rw [h2]

/-- Claim C1, witness: the amended theorem applied to the concrete
environment `baseEnv` and the concrete run result. -/
theorem spec_C1_witness :
    baseEnv.queue0 = [] ∧ (⟨[], 2⟩ : FetchState).collectCalls = 2 :=
  ⟨rfl, spec_C1_amended baseEnv wf_state ⟨[], 2⟩ rfl rfl⟩

/-- Claim C2: whenever the final decision text contains the hold keyword
(the gate lowercases the text first, so the match is case-insensitive), the
gate records exactly one HOLD outcome with quantity 0 and total_amount 0 and
never invokes the exchange execution primitive, whatever else the text
contains and whatever the balance and exchange would answer. -/
theorem spec_C2_hold_wins (st : AgentState) (env : Env)
    (fd : FinalEntry) (md : MarketData)
    (hfd : st.results.final_decision = some fd)
    (hmd : st.market_data = some md)
    (hhold : pyIn "관망" (py_lower fd.decision) = true) :
    execute_trading_decision st env =
      ⟨[⟨env.now, "HOLD", 0, md.closing_price, 0, hold_order_id env.now⟩],
        false, false⟩ := by
  simp [execute_trading_decision, hfd, hmd, hhold]

/-- Claim C2, witness: a decision text containing both the buy keyword and
the hold keyword yields the HOLD record and no execution call. -/
theorem spec_C2_witness :
    pyIn "관망" (py_lower "최종 투자 결정: 매수 의견도 있으나 관망") = true ∧
    execute_trading_decision (st_gate "최종 투자 결정: 매수 의견도 있으나 관망")
        baseEnv =
      ⟨[⟨t0, "HOLD", 0, 100, 0, hold_order_id t0⟩], false, false⟩ :=
  ⟨by decide,
    spec_C2_hold_wins (st_gate "최종 투자 결정: 매수 의견도 있으나 관망")
      baseEnv _ _ rfl rfl (by decide)⟩

/-- Claim C3: on the buy path (buy keyword present, hold keyword absent),
an available balance strictly below 10000 yields exactly one CANT_BUY record
with quantity 0 and no execution call; an available balance of 10000 or more
reaches the exchange execution primitive. -/
theorem spec_C3_buy_balance_gate (st : AgentState) (env : Env)
    (fd : FinalEntry) (md : MarketData) (info : List (String × Rat))
    (hfd : st.results.final_decision = some fd)
    (hmd : st.market_data = some md)
    (hbuy : pyIn "매수" (py_lower fd.decision) = true)
    (hnohold : pyIn "관망" (py_lower fd.decision) = false)
    (hbal : env.balance = .ok info) :
    (dict_get info "available_krw" 0 < 10000 →
      execute_trading_decision st env =
        ⟨[⟨env.now, "CANT_BUY", 0, md.closing_price, 0,
            buy_cant_order_id env.now⟩], false, true⟩) ∧
    (10000 ≤ dict_get info "available_krw" 0 →
      (execute_trading_decision st env).executeCalled = true) := by
  constructor
  · intro hlt
    simp [execute_trading_decision, hfd, hmd, hbuy, hnohold, hbal, hlt]
  · intro hge
    simp [execute_trading_decision, hfd, hmd, hbuy, hnohold, hbal,
      not_lt.mpr hge, gate_exec_tail]
    cases env.exec with
    | error e => simp [gate_exec_tail]
    | ok r => simp [gate_exec_tail]; split <;> rfl

/-- Claim C3, witness: a buy decision with 9999 KRW available yields the
CANT_BUY record with quantity 0 and no execution. -/
theorem spec_C3_witness :
    dict_get [("available_krw", (9999 : Rat))] "available_krw" 0 < 10000 ∧
    execute_trading_decision (st_gate "최종 투자 결정: 매수") env_c3 =
      ⟨[⟨t0, "CANT_BUY", 0, 100, 0, buy_cant_order_id t0⟩], false, true⟩ :=
  ⟨by decide,
    (spec_C3_buy_balance_gate (st_gate "최종 투자 결정: 매수") env_c3
      _ _ _ rfl rfl (by decide) (by decide) rfl).1 (by decide)⟩

/-- Claim C4, counterexample: a run that completes (the final-decision stage
produced a result, here a sell decision) can persist zero Decision Records,
because the sell path aborts on the unbound local `trade_executor` before
reaching the execution primitive. The claim says exactly one record per
completed run. -/
theorem spec_C4_counterexample :
    runCompleted env_sell = true ∧
    (run_trading_analysis env_sell).2 = [] := by
  constructor <;> rfl

/-- Claim C4, amended: at most one Decision Record is persisted per
completed pipeline run (zero when the gate aborts without a terminal
record), and a run that fails before reconciliation completes persists
zero Decision Records. -/
theorem spec_C4_amended (env : Env) :
    (run_trading_analysis env).2.length ≤ 1 ∧
    (∀ e, workflow_invoke env = .error e →
      (run_trading_analysis env).2 = []) := by
  constructor
  · unfold run_trading_analysis
    cases h : workflow_invoke env with
    | error e => simp
    | ok p =>
      dsimp only
      split
      · exact gate_saved_len p.1 env
      · simp
  · intro e he
    simp [run_trading_analysis, he]

/-- Claim C4, witness: the amended theorem applied to an environment whose
news stage raises, so the run fails before reconciliation and persists
nothing. -/
theorem spec_C4_witness : (run_trading_analysis env_fail).2 = [] :=
  (spec_C4_amended env_fail).2 () rfl

/-- Claim C5, counterexample: the HOLD record persisted for a hold decision
at market price 100 carries `price = 100`, not zero. The claim says the
price field of HOLD and CANT_BUY records is zero. -/
theorem spec_C5_counterexample :
    (execute_trading_decision (st_gate "최종 투자 결정: 관망") baseEnv).saved =
      [⟨t0, "HOLD", 0, 100, 0, hold_order_id t0⟩] ∧ (100 : Rat) ≠ 0 := by
  constructor
  · rfl
  · decide

/-- Claim C5, amended: every persisted HOLD or CANT_BUY Decision Record has
quantity 0 and total_amount 0, while its price field equals the market
closing price current at decision time (the hypothesis on `env.exec` states
that the exchange primitive reports real trade types, never HOLD or
CANT_BUY). -/
theorem spec_C5_amended (st : AgentState) (env : Env) (r : TradeRecord)
    (hexec : ∀ res, env.exec = .ok res →
      res.type ≠ "HOLD" ∧ res.type ≠ "CANT_BUY")
    (hr : r ∈ (execute_trading_decision st env).saved)
    (hk : r.trade_type = "HOLD" ∨ r.trade_type = "CANT_BUY") :
    r.quantity = 0 ∧ r.total_amount = 0 ∧
      ∃ md, st.market_data = some md ∧ r.price = md.closing_price := by
  unfold execute_trading_decision at hr
  cases hfd : st.results.final_decision with
  | none => simp [hfd] at hr
  | some fd =>
    cases hmd : st.market_data with
    | none => simp [hfd, hmd] at hr
    | some md =>
      simp only [hfd, hmd] at hr
      by_cases hhold : pyIn "관망" (py_lower fd.decision) = true
      · simp [hhold] at hr
        subst hr
        exact ⟨rfl, rfl, md, rfl, rfl⟩
      · simp [hhold] at hr
        by_cases hbuy : pyIn "매수" (py_lower fd.decision) = true
        · simp [hbuy] at hr
          cases hbal : env.balance with
          | error e => simp [hbal] at hr
          | ok info =>
            simp only [hbal] at hr
            by_cases hlt : dict_get info "available_krw" 0 < 10000
            · simp [hlt] at hr
              subst hr
              exact ⟨rfl, rfl, md, rfl, rfl⟩
            · simp only [if_neg hlt] at hr
              cases hex : env.exec with
              | error e => simp [gate_exec_tail, hex] at hr
              | ok res =>
                simp only [gate_exec_tail, hex] at hr
                by_cases hs : res.status == "SUCCESS"
                · simp [hs] at hr
                  subst hr
                  obtain ⟨hne1, hne2⟩ := hexec res hex
                  simp at hk
                  rcases hk with hk | hk
                  · exact absurd hk hne1
                  · exact absurd hk hne2
                · simp [hs] at hr
        · simp [hbuy] at hr

/-- Claim C5, witness: the amended theorem applied to the HOLD record of a
concrete hold run at market price 100. -/
theorem spec_C5_witness :
    (⟨t0, "HOLD", 0, 100, 0, hold_order_id t0⟩ : TradeRecord).quantity = 0 ∧
    (⟨t0, "HOLD", 0, 100, 0, hold_order_id t0⟩ : TradeRecord).total_amount = 0 ∧
    ∃ md, (st_gate "최종 투자 결정: 관망").market_data = some md ∧
      (⟨t0, "HOLD", 0, 100, 0, hold_order_id t0⟩ : TradeRecord).price =
        md.closing_price :=
  spec_C5_amended (st_gate "최종 투자 결정: 관망") baseEnv
    ⟨t0, "HOLD", 0, 100, 0, hold_order_id t0⟩
    (fun res h => by
      injection h with h2
      subst h2
      exact ⟨by decide, by decide⟩)
    (by decide) (Or.inl rfl)

/-- Claim C6: on the buy path, a raising balance query aborts the run with
no execution call and no persisted record (fail-closed); and when the
balance allows the purchase, a raising execution primitive, or one returning
a non-success status, leads to no persisted record. -/
theorem spec_C6_fail_closed (st : AgentState) (env : Env)
    (fd : FinalEntry) (md : MarketData)
    (hfd : st.results.final_decision = some fd)
    (hmd : st.market_data = some md)
    (hbuy : pyIn "매수" (py_lower fd.decision) = true)
    (hnohold : pyIn "관망" (py_lower fd.decision) = false) :
    (env.balance = .error () →
      execute_trading_decision st env = ⟨[], false, true⟩) ∧
    (∀ info, env.balance = .ok info →
      10000 ≤ dict_get info "available_krw" 0 →
      (env.exec = .error () → (execute_trading_decision st env).saved = []) ∧
      (∀ r, env.exec = .ok r → r.status ≠ "SUCCESS" →
        (execute_trading_decision st env).saved = [])) := by
  constructor
  · intro hbal
    simp [execute_trading_decision, hfd, hmd, hbuy, hnohold, hbal]
  · intro info hbal hge
    constructor
    · intro hex
      simp [execute_trading_decision, hfd, hmd, hbuy, hnohold, hbal,
        not_lt.mpr hge, gate_exec_tail, hex]
    · intro r hex hs
      simp [execute_trading_decision, hfd, hmd, hbuy, hnohold, hbal,
        not_lt.mpr hge, gate_exec_tail, hex, hs]

/-- Claim C6, witness: a buy decision whose balance query raises ends with
no record saved and no execution call. -/
theorem spec_C6_witness :
    pyIn "매수" (py_lower "최종 투자 결정: 매수") = true ∧
    execute_trading_decision (st_gate "최종 투자 결정: 매수") env_c6 =
      ⟨[], false, true⟩ :=
  ⟨by decide,
    (spec_C6_fail_closed (st_gate "최종 투자 결정: 매수") env_c6
      _ _ rfl rfl (by decide) (by decide)).1 rfl⟩

/-- Claim C7: invoking the final-decision stage on a context missing the
news-analysis result or the price-analysis result always fails with an error
and never produces a decision. -/
theorem spec_C7_preconditions (env : Env) (st : AgentState) (fs : FetchState)
    (h : st.results.news_analysis = none ∨ st.results.price_analysis = none) :
    final_decision_agent env st fs = .error () := by
  unfold final_decision_agent
  have hres := get_md_results env st fs
  rcases hg : get_market_data_once env st fs with ⟨o, st1, fs1⟩
  rw [hg] at hres
  cases o with
  | none => rfl
  | some md =>
    dsimp only
    dsimp only at hres
    rcases h with h | h
    · simp [hres, h]
    · cases hn : st1.results.news_analysis <;> simp [hres, h, hn]

/-- Claim C7, witness: the stage invoked on the empty initial context
(missing both prior results) fails. -/
theorem spec_C7_witness :
    (initial_state.results.news_analysis = none ∨
      initial_state.results.price_analysis = none) ∧
    final_decision_agent baseEnv initial_state ⟨[], 0⟩ = .error () :=
  ⟨Or.inl rfl,
    spec_C7_preconditions baseEnv initial_state ⟨[], 0⟩ (Or.inl rfl)⟩

/-- Claim C8: every sleep the scheduler performs is the same flat
`WAIT_SECONDS`; a cycle that raises produces exactly the same trace as a
successful cycle (same wait, next cycle starts, loop not terminated); and
the loop terminates exactly when some cycle is externally interrupted. -/
theorem spec_C8_scheduler_isolation (cs rest : List CycleResult) :
    ((run_continuous_analysis cs).waits).all
        (fun w => w == WAIT_SECONDS) = true ∧
    run_continuous_analysis (.error :: rest) =
      run_continuous_analysis (.success :: rest) ∧
    (run_continuous_analysis (.error :: rest)).cyclesStarted =
      (run_continuous_analysis rest).cyclesStarted + 1 ∧
    (run_continuous_analysis cs).interrupted = cs.contains .interrupt := by
  refine ⟨?_, rfl, rfl, ?_⟩
  · induction cs with
    | nil => rfl
    | cons c rest2 ih =>
      cases c <;> first
        | rfl
        | (simp_all [run_continuous_analysis]; exact ih)
  · induction cs with
    | nil => rfl
    | cons c rest2 ih =>
      cases c <;> simp_all [run_continuous_analysis, List.contains]

/-- Claim C9, counterexample: the rendered timestamp has second resolution,
not millisecond resolution; two datetimes differing only in their sub-second
field share the same HOLD order id. Moreover a persisted executed-trade
record carries the order id returned by the exchange, not one derived from
the outcome kind and a timestamp. -/
theorem spec_C9_counterexample :
    hold_order_id ⟨2025, 6, 1, 12, 0, 0, 0⟩ =
      hold_order_id ⟨2025, 6, 1, 12, 0, 0, 500000⟩ ∧
    (⟨2025, 6, 1, 12, 0, 0, 0⟩ : PyDatetime) ≠
      (⟨2025, 6, 1, 12, 0, 0, 500000⟩ : PyDatetime) ∧
    (execute_trading_decision (st_gate "최종 투자 결정: 매수") baseEnv).saved =
      [⟨t0, "BUY", 2, 100, 200, "EXCHANGE-0042"⟩] := by
  refine ⟨rfl, by decide, rfl⟩

/-- Claim C9, amended: HOLD and CANT_BUY records derive their order id from
the outcome kind plus a second-resolution timestamp; two such ids agree only
when every timestamp field down to the second agrees (so records of
successive scheduler cycles, 20 minutes apart, never collide), a HOLD id
never equals a CANT_BUY id, and an executed-trade record carries the order
id returned by the exchange primitive. -/
theorem spec_C9_amended (t1 t2 : PyDatetime)
    (h1y : t1.year < 10000) (h2y : t2.year < 10000)
    (h1mo : t1.month < 100) (h2mo : t2.month < 100)
    (h1d : t1.day < 100) (h2d : t2.day < 100)
    (h1h : t1.hour < 100) (h2h : t2.hour < 100)
    (h1mi : t1.minute < 100) (h2mi : t2.minute < 100)
    (h1s : t1.second < 100) (h2s : t2.second < 100) :
    (hold_order_id t1 = hold_order_id t2 →
      t1.year = t2.year ∧ t1.month = t2.month ∧ t1.day = t2.day ∧
        t1.hour = t2.hour ∧ t1.minute = t2.minute ∧ t1.second = t2.second) ∧
    (buy_cant_order_id t1 = buy_cant_order_id t2 →
      t1.year = t2.year ∧ t1.month = t2.month ∧ t1.day = t2.day ∧
        t1.hour = t2.hour ∧ t1.minute = t2.minute ∧ t1.second = t2.second) ∧
    hold_order_id t1 ≠ buy_cant_order_id t2 ∧
    (∀ st env res, env.exec = .ok res →
      ∀ rec ∈ (execute_trading_decision st env).saved,
        rec.trade_type ≠ "HOLD" → rec.trade_type ≠ "CANT_BUY" →
          rec.order_id = res.order_id) := by
  refine ⟨?_, ?_, ?_, ?_⟩
  · intro h
    have hd := congrArg String.data h
    simp only [hold_order_id, String.data_append] at hd
    exact strftime_inj t1 t2 h1y h2y h1mo h2mo h1d h2d h1h h2h h1mi h2mi
      h1s h2s (String.ext (List.append_cancel_left hd))
  · intro h
    have hd := congrArg String.data h
    simp only [buy_cant_order_id, String.data_append] at hd
    exact strftime_inj t1 t2 h1y h2y h1mo h2mo h1d h2d h1h h2h h1mi h2mi
      h1s h2s (String.ext (List.append_cancel_left hd))
  · intro h
    have hd := congrArg String.data h
    simp only [hold_order_id, buy_cant_order_id, String.data_append] at hd
    simp at hd
  · intro st env res hex rec hrec hnh hnc
    unfold execute_trading_decision at hrec
    cases hfd : st.results.final_decision with
    | none => simp [hfd] at hrec
    | some fd =>
      cases hmd : st.market_data with
      | none => simp [hfd, hmd] at hrec
      | some md =>
        simp only [hfd, hmd] at hrec
        by_cases hhold : pyIn "관망" (py_lower fd.decision) = true
        · simp [hhold] at hrec
          rw [hrec] at hnh
          exact absurd rfl hnh
        · simp [hhold] at hrec
          by_cases hbuy : pyIn "매수" (py_lower fd.decision) = true
          · simp [hbuy] at hrec
            cases hbal : env.balance with
            | error e => simp [hbal] at hrec
            | ok info =>
              simp only [hbal] at hrec
              by_cases hlt : dict_get info "available_krw" 0 < 10000
              · simp [hlt] at hrec
                rw [hrec] at hnc
                exact absurd rfl hnc
              · simp only [if_neg hlt, gate_exec_tail, hex] at hrec
                by_cases hs : res.status == "SUCCESS"
                · simp [hs] at hrec
                  rw [hrec]
                · simp [hs] at hrec
          · simp [hbuy] at hrec

/-- Claim C9, witness: the amended theorem applied at a concrete in-range
timestamp; a HOLD id never equals a CANT_BUY id. -/
theorem spec_C9_witness :
    t0.year < 10000 ∧ hold_order_id t0 ≠ buy_cant_order_id t0 :=
  ⟨by decide,
    (spec_C9_amended t0 t0 (by decide) (by decide) (by decide) (by decide)
      (by decide) (by decide) (by decide) (by decide) (by decide) (by decide)
      (by decide) (by decide)).2.2.1⟩

/-- Claim C10: on the buy path, a successful balance query whose dictionary
lacks the `available_krw` key is treated as an available balance of 0, so
the gate records CANT_BUY with quantity 0 and does not execute. -/
theorem spec_C10_missing_balance_field (st : AgentState) (env : Env)
    (fd : FinalEntry) (md : MarketData) (info : List (String × Rat))
    (hfd : st.results.final_decision = some fd)
    (hmd : st.market_data = some md)
    (hbuy : pyIn "매수" (py_lower fd.decision) = true)
    (hnohold : pyIn "관망" (py_lower fd.decision) = false)
    (hbal : env.balance = .ok info)
    (hmissing : info.find? (fun p => p.1 == "available_krw") = none) :
    execute_trading_decision st env =
      ⟨[⟨env.now, "CANT_BUY", 0, md.closing_price, 0,
          buy_cant_order_id env.now⟩], false, true⟩ := by
  have hz : dict_get info "available_krw" 0 = 0 := by
    simp [dict_get, hmissing]
  simp [execute_trading_decision, hfd, hmd, hbuy, hnohold, hbal, hz]

/-- Claim C10, witness: a buy decision with a balance dictionary holding
only `total_krw` yields the CANT_BUY record and no execution. -/
theorem spec_C10_witness :
    [(("total_krw", (50000 : Rat)))].find?
        (fun p => p.1 == "available_krw") = none ∧
    execute_trading_decision (st_gate "최종 투자 결정: 매수") env_c10 =
      ⟨[⟨t0, "CANT_BUY", 0, 100, 0, buy_cant_order_id t0⟩], false, true⟩ :=
  ⟨by decide,
    spec_C10_missing_balance_field (st_gate "최종 투자 결정: 매수") env_c10
      _ _ _ rfl rfl (by decide) (by decide) rfl (by decide)⟩
